import Mathlib

/-!
Verification of the period-aware aggregation and filtering pipeline of the
VOC (voice-of-customer) Streamlit report
(`merchant_voc_categorize_streamlit_report_v5_final.py`).

The pipeline is shallowly embedded: the input CSV becomes a `RawTable`
(header plus rows of optional string cells, `none` modelling a null/NaN
cell), `load_data` mirrors the normalizer, and the aggregation functions
mirror the report sections.  Ratios are computed in `ℚ`; a division that
pandas would evaluate to NaN (an unguarded zero denominator) is modelled
as `Option.none`.
-/

/-- A calendar date, as produced by parsing a date cell. -/
structure Date where
  year : Nat
  month : Nat
  day : Nat
deriving DecidableEq, Repr

/-- The `year_month` key derived from a date (`df[date_col].dt.to_period('M')`),
encoded as `year * 100 + month`. -/
def monthKey (d : Date) : Nat := d.year * 100 + d.month

/-- The string rendering of a month key, matching `str` of a pandas monthly
period, e.g. `202502 ↦ "2025-02"`. -/
def formatMonth (m : Nat) : String :=
  toString (m / 100) ++ "-" ++ (if m % 100 < 10 then "0" else "") ++ toString (m % 100)

/-- Lexicographic order on dates. -/
def dateLe (a b : Date) : Bool :=
  a.year < b.year ∨ (a.year = b.year ∧ (a.month < b.month ∨ (a.month = b.month ∧ a.day ≤ b.day)))

/-- Splits a character list on the dash character. -/
def splitDash : List Char → List (List Char)
  | [] => [[]]
  | c :: rest =>
      match splitDash rest with
      | [] => if c = Char.ofNat 45 then [[], []] else [[c]]
      | g :: gs => if c = Char.ofNat 45 then [] :: g :: gs else (c :: g) :: gs

/-- Reads a nonempty all-digit character list as a natural number. -/
def digitsToNat : List Char → Option Nat
  | [] => none
  | cs => go 0 cs
where
  go : Nat → List Char → Option Nat
    | acc, [] => some acc
    | acc, c :: rest => if c.isDigit then go (acc * 10 + (c.toNat - 48)) rest else none

/-- Models `pd.to_datetime(s, errors='coerce')` on an ISO `YYYY-MM-DD` string:
the parse succeeds exactly on three dash-separated numeric components with a
plausible month and day, and any other string coerces to NaT (`none`). -/
def parseDate (s : String) : Option Date :=
  match (splitDash s.data).map digitsToNat with
  | [some y, some m, some d] =>
      if 1 ≤ m ∧ m ≤ 12 ∧ 1 ≤ d ∧ d ≤ 31 then some ⟨y, m, d⟩ else none
  | _ => none

/-- The raw-to-canonical sentiment vocabulary (`emotion_mappings` in
`load_data`). -/
def emotion_mappings : List (String × String) :=
  [("positive", "긍정"), ("negative", "부정"), ("neutral", "중립"),
   ("pos", "긍정"), ("neg", "부정"), ("neu", "중립"),
   ("1", "긍정"), ("0", "중립"), ("-1", "부정")]

/-- Sentiment normalization of one cell value:
`df[col].map(emotion_mappings).fillna(df[col])` maps a value in the raw
vocabulary to its canonical form and leaves any other value unchanged. -/
def normalizeEmotion (s : String) : String :=
  match emotion_mappings.lookup s with
  | some k => k
  | none => s

/-- The raw CSV table: a header of column names and rows of cells, where a
`none` cell is a null (NaN) value.  Rows are positionally aligned with the
header. -/
structure RawTable where
  header : List String
  rows : List (List (Option String))
deriving DecidableEq, Repr

/-- The fixed priority list of candidate date columns (`date_columns`). -/
def date_columns : List String :=
  ["voc_start_dt", "created_at", "date", "timestamp", "created_date",
   "voc_date", "analysis_date", "processed_date"]

/-- Date-column resolution: the first candidate present in the header. -/
def findDateCol (t : RawTable) : Option String :=
  date_columns.find? (fun c => t.header.contains c)

/-- The cell of a row at a column index (`none` when out of range or null). -/
def cellAt (row : List (Option String)) (j : Nat) : Option String :=
  (row.get? j).join

/-- The index of a column name in the header, defaulting to the row length
(hence a null cell) when absent. -/
def colIdx (t : RawTable) (c : String) : Nat :=
  (t.header.indexOf? c).getD t.header.length

/-- The sentiment source column: the code normalizes `감정` if present, else
`emotion`, else `sentiment`. -/
def emotionSource (t : RawTable) : Option String :=
  if t.header.contains "감정" then some "감정"
  else if t.header.contains "emotion" then some "emotion"
  else if t.header.contains "sentiment" then some "sentiment"
  else none

/-- The effective source column for the canonical major category `대분류`:
the canonical column when present, else the first English alias that is
present (`column_mappings` is scanned in dict order and never overwrites an
existing canonical column). -/
def majorSource (t : RawTable) : Option String :=
  ["대분류", "major_category", "category_major", "main_category"].find?
    (fun c => t.header.contains c)

/-- The effective source column for the canonical minor category `중분류`. -/
def minorSource (t : RawTable) : Option String :=
  ["중분류", "minor_category", "category_minor", "sub_category"].find?
    (fun c => t.header.contains c)

/-- One normalized record of the queryable universe.  `firstCol` is the value
of the table's first column (`table_df.columns[0]`, used by the detail-table
aggregation); the model takes the first column to be an ordinary data column,
distinct from `voc_id` and from the grouping columns. -/
structure Row where
  firstCol : Option String
  vocId : Option String
  emotion : Option String
  major : Option String
  minor : Option String
  date : Date
deriving DecidableEq, Repr

/-- The normalized dataset: which canonical columns exist, plus the records.
A `none` field value on a row models a null cell of an existing column. -/
structure Frame where
  hasEmotion : Bool
  hasMajor : Bool
  hasMinor : Bool
  hasVocId : Bool
  rows : List Row
deriving DecidableEq, Repr

/-- The optional value of a named source column for one raw row. -/
def srcCell (t : RawTable) (src : Option String) (row : List (Option String)) :
    Option String :=
  match src with
  | none => none
  | some c => cellAt row (colIdx t c)

/-- Converts one raw row: the row survives date parsing exactly when its date
cell parses (`pd.to_datetime(..., errors='coerce')` followed by
`dropna(subset=[date_col])`), and the sentiment value is normalized. -/
def rowOf (t : RawTable) (dcol : String) (row : List (Option String)) : Option Row :=
  match (cellAt row (colIdx t dcol)).bind parseDate with
  | none => none
  | some d =>
      some { firstCol := cellAt row 0,
             vocId := if t.header.contains "voc_id" then cellAt row (colIdx t "voc_id") else none,
             emotion := (srcCell t (emotionSource t) row).map normalizeEmotion,
             major := srcCell t (majorSource t) row,
             minor := srcCell t (minorSource t) row,
             date := d }

/-- All rows surviving date parsing (the post-`dropna` dataframe). -/
def parsedRows (t : RawTable) (dcol : String) : List Row :=
  t.rows.filterMap (rowOf t dcol)

/-- The target-year slice `df_2025 = df[df['year'] == 2025]`. -/
def rows2025 (t : RawTable) (dcol : String) : List Row :=
  (parsedRows t dcol).filter (fun r => r.date.year == 2025)

/-- Worker for `distinctVals`: keeps values not yet seen. -/
def distinctValsAux {α : Type} [DecidableEq α] (seen : List α) : List α → List α
  | [] => []
  | a :: rest =>
      if a ∈ seen then distinctValsAux seen rest
      else a :: distinctValsAux (a :: seen) rest

/-- Distinct values of a list in first-encountered order.  This realizes the
specification's canonical "stable, first-encountered" policy for distinct
value enumeration. -/
def distinctVals {α : Type} [DecidableEq α] (l : List α) : List α :=
  distinctValsAux [] l

/-- The provenance summary displayed by `load_data` via `st.info`: row counts
before/after the year restriction (both measured after the date-parse drop),
the date span and month span of the 2025 slice, and the distinct
sentiment/major-category counts. -/
structure Provenance where
  totalRows : Nat
  rowsInYear : Nat
  minDate : Date
  maxDate : Date
  minMonth : Nat
  maxMonth : Nat
  emotionKinds : Nat
  majorKinds : Nat
deriving DecidableEq, Repr

/-- Minimum date of a nonempty row list, seeded with a first element. -/
def minDateOf (d : Date) (l : List Row) : Date :=
  l.foldl (fun a r => if dateLe r.date a then r.date else a) d

/-- Maximum date of a nonempty row list, seeded with a first element. -/
def maxDateOf (d : Date) (l : List Row) : Date :=
  l.foldl (fun a r => if dateLe a r.date then r.date else a) d

/-- Minimum of a list of month keys, seeded. -/
def minMonthOf (m : Nat) (l : List Row) : Nat :=
  l.foldl (fun a r => min a (monthKey r.date)) m

/-- Maximum of a list of month keys, seeded. -/
def maxMonthOf (m : Nat) (l : List Row) : Nat :=
  l.foldl (fun a r => max a (monthKey r.date)) m

/-- The distinct non-null value count of a field (`Series.nunique`). -/
def nuniqueBy (f : Row → Option String) (l : List Row) : Nat :=
  (distinctVals (l.filterMap f)).length

/-- The failure modes of `load_data`.  `noDateColumn` is the explicit
early-return when no candidate date column is present; `emptyAfterFilter`
models the exception raised while formatting the provenance summary of an
empty target-year slice (`NaT.strftime` raising inside the `st.info` call),
caught by the function's generic handler — the distinct observable failure
of an empty 2025 slice. -/
inductive LoadError
  | noDateColumn
  | emptyAfterFilter
deriving DecidableEq, Repr

deriving instance DecidableEq for Except

/-- The Dataset Normalizer (`load_data`): resolves the date column, parses
dates and drops unparsable rows, normalizes sentiment, aliases category
columns, restricts to 2025, and reports provenance.  Returns the normalized
frame, the date column used, and the provenance summary, or a failure. -/
def load_data (t : RawTable) : Except LoadError (Frame × String × Provenance) :=
  match findDateCol t with
  | none => Except.error LoadError.noDateColumn
  | some dcol =>
      match rows2025 t dcol with
      | [] => Except.error LoadError.emptyAfterFilter
      | r0 :: rest =>
          let r25 := r0 :: rest
          Except.ok
            ({ hasEmotion := (emotionSource t).isSome,
               hasMajor := (majorSource t).isSome,
               hasMinor := (minorSource t).isSome,
               hasVocId := t.header.contains "voc_id",
               rows := r25 },
             dcol,
             { totalRows := (parsedRows t dcol).length,
               rowsInYear := r25.length,
               minDate := minDateOf r0.date rest,
               maxDate := maxDateOf r0.date rest,
               minMonth := minMonthOf (monthKey r0.date) rest,
               maxMonth := maxMonthOf (monthKey r0.date) rest,
               emotionKinds := if (emotionSource t).isSome then nuniqueBy Row.emotion r25 else 0,
               majorKinds := if (majorSource t).isSome then nuniqueBy Row.major r25 else 0 })

/-- The number of input rows dropped by date parsing: rows whose date cell is
null or fails to parse (defined only when a date column resolves). -/
def droppedRowCount (t : RawTable) : Nat :=
  match findDateCol t with
  | none => 0
  | some dcol =>
      t.rows.countP (fun row => ((cellAt row (colIdx t dcol)).bind parseDate).isNone)

/-- Period resolution (`get_filtered_data`): `현월` (current month) restricts
to the maximum month key present and labels the result with that month;
any other period (the `25년 누적` year-to-date radio choice) returns the
dataset unchanged under the fixed year-total label. -/
def latestMonth (rows : List Row) : Nat :=
  (rows.map (fun r => monthKey r.date)).foldr max 0

def get_filtered_data (f : Frame) (period : String) : Frame × String :=
  if period = "현월" then
    ({ f with rows := f.rows.filter (fun r => monthKey r.date == latestMonth f.rows) },
     formatMonth (latestMonth f.rows))
  else (f, "2025년 누적")

/-- The rows of one month of the full normalized set
(`month_df = df[df['year_month'] == month]`). -/
def monthRows (f : Frame) (m : Nat) : List Row :=
  f.rows.filter (fun r => monthKey r.date == m)

/-- Count of rows carrying one sentiment value
(`emotion_counts.get(v, 0)` of `month_df['감정'].value_counts()`). -/
def emoCount (rows : List Row) (v : String) : Nat :=
  rows.countP (fun r => r.emotion == some v)

/-- Count of rows with any non-null sentiment value
(`emotion_counts.sum()`; `value_counts` excludes nulls). -/
def totalEmotions (rows : List Row) : Nat :=
  rows.countP (fun r => r.emotion.isSome)

/-- The guarded percentage `(c / total * 100) if total > 0 else 0` used for
every sentiment ratio of the trend and overview sections. -/
def ratioOf (c total : Nat) : ℚ :=
  if 0 < total then (c : ℚ) / (total : ℚ) * 100 else 0

/-- Monthly positive-sentiment ratio of `create_trend_analysis` (0 when the
sentiment column is absent). -/
def positive_ratio (f : Frame) (m : Nat) : ℚ :=
  if f.hasEmotion then ratioOf (emoCount (monthRows f m) "긍정") (totalEmotions (monthRows f m))
  else 0

/-- Monthly neutral-sentiment ratio of `create_trend_analysis`. -/
def neutral_ratio (f : Frame) (m : Nat) : ℚ :=
  if f.hasEmotion then ratioOf (emoCount (monthRows f m) "중립") (totalEmotions (monthRows f m))
  else 0

/-- Monthly negative-sentiment ratio of `create_trend_analysis`. -/
def negative_ratio (f : Frame) (m : Nat) : ℚ :=
  if f.hasEmotion then ratioOf (emoCount (monthRows f m) "부정") (totalEmotions (monthRows f m))
  else 0

/-- The negative-sentiment percentage over a row set, as computed both by
`create_overview` and by the narrative generator of
`create_summary_statistics`:
`emotion_counts.get('부정', 0) / emotion_counts.sum() * 100` guarded to 0 on
an empty sum. -/
def negativeShare (rows : List Row) : ℚ :=
  ratioOf (emoCount rows "부정") (totalEmotions rows)

/-- The overview negative ratio (`create_overview`): 0 when the sentiment
column is absent. -/
def overview_negative_ratio (f : Frame) : ℚ :=
  if f.hasEmotion then negativeShare f.rows else 0

/-- Number of occurrences of a value in a list. -/
def occCount {α : Type} [DecidableEq α] (l : List α) (v : α) : Nat :=
  l.countP (fun b => b == v)

/-- Stable insertion into a list sorted by the boolean relation `le`. -/
def insertBy {α : Type} (le : α → α → Bool) (a : α) : List α → List α
  | [] => [a]
  | b :: rest => if le a b then a :: b :: rest else b :: insertBy le a rest

/-- Insertion sort by the boolean relation `le` (stable: equal elements keep
their original order, realizing the specification's first-encountered
tie-break policy). -/
def sortBy {α : Type} (le : α → α → Bool) : List α → List α
  | [] => []
  | a :: rest => insertBy le a (sortBy le rest)

/-- Distinct values of a list paired with their multiplicities, sorted by
descending count (`Series.value_counts()`). -/
def valueCounts {α : Type} [DecidableEq α] (l : List α) : List (α × Nat) :=
  sortBy (fun a b => Nat.ble b.2 a.2) ((distinctVals l).map (fun v => (v, occCount l v)))

/-- The top 3 major categories by total volume used for the trend line series
(`df['대분류'].value_counts().head(3).index`), empty when the category
column is absent. -/
def trendTopCategories (f : Frame) : List String :=
  if f.hasMajor then ((valueCounts (f.rows.filterMap Row.major)).map Prod.fst).take 3
  else []

/-- The top 10 major categories bounding the sunburst breakdown
(`filtered_df['대분류'].value_counts().head(10).index`). -/
def breakdownTopCategories (f : Frame) : List String :=
  if f.hasMajor then ((valueCounts (f.rows.filterMap Row.major)).map Prod.fst).take 10
  else []

/-- The (major, minor) pair of a row when both are non-null; `groupby` drops
rows with a null key. -/
def comboOf (r : Row) : Option (String × String) :=
  match r.major, r.minor with
  | some a, some b => some (a, b)
  | _, _ => none

/-- The TOP 10 major-minor combinations of `create_summary_statistics`
(`groupby(['대분류','중분류']).size().sort_values(ascending=False).head(10)`),
empty when either category column is absent. -/
def topCombinations (f : Frame) : List ((String × String) × Nat) :=
  if f.hasMajor && f.hasMinor then (valueCounts (f.rows.filterMap comboOf)).take 10
  else []

/-- The dominant major category of the narrative generator
(`filtered_df['대분류'].value_counts().index[0]`): `none` models the
`IndexError` this indexing raises when the column holds no non-null value. -/
def mostCommonMajor (rows : List Row) : Option String :=
  match valueCounts (rows.filterMap Row.major) with
  | [] => none
  | p :: _ => some p.1

/-- The abstract identities of the narrative generator's fixed templates. -/
inductive CommentKind
  | yearTotal
  | volumeHigh
  | volumeMid
  | volumeLow
  | negUrgent
  | negCaution
  | negLow
  | topCategory
  | negActionable
deriving DecidableEq, Repr

/-- The volume-tier comment: the year-total template under the year-to-date
label, otherwise three tiers on `total_voc = len(filtered_df)` with
thresholds 1000 and 500. -/
def volumeComment (f : Frame) (periodLabel : String) : CommentKind :=
  if periodLabel = "2025년 누적" then CommentKind.yearTotal
  else if 1000 < f.rows.length then CommentKind.volumeHigh
  else if 500 < f.rows.length then CommentKind.volumeMid
  else CommentKind.volumeLow

/-- The negative-ratio tier comment of `create_summary_statistics`:
urgent above 60, caution above 40, low otherwise. -/
def negTierComment (ratio : ℚ) : CommentKind :=
  if 60 < ratio then CommentKind.negUrgent
  else if 40 < ratio then CommentKind.negCaution
  else CommentKind.negLow

/-- Whether a comment is one of the three negative-ratio tiers. -/
def isNegTier : CommentKind → Bool
  | CommentKind.negUrgent => true
  | CommentKind.negCaution => true
  | CommentKind.negLow => true
  | _ => false

/-- The major categories of the negative-sentiment rows
(`filtered_df[filtered_df['감정'] == '부정']['대분류']`, nulls excluded). -/
def negativeMajors (rows : List Row) : List String :=
  (rows.filter (fun r => r.emotion == some "부정")).filterMap Row.major

/-- The ordered comment list of the narrative generator
(`create_summary_statistics`): the volume-tier comment, then (when the
sentiment column exists) the negative-ratio tier comment, then (when the
major-category column exists) the dominant-category comment — whose
`value_counts().index[0]` raises an `IndexError`, modelled as `none`, when
no non-null major category exists — and finally the actionable comment when
both columns exist and some negative row has a major category. -/
def create_summary_comments (f : Frame) (periodLabel : String) :
    Option (List CommentKind) :=
  let c1 := [volumeComment f periodLabel]
  let c2 := if f.hasEmotion then c1 ++ [negTierComment (negativeShare f.rows)] else c1
  if f.hasMajor then
    match mostCommonMajor f.rows with
    | none => none
    | some _ =>
        let c3 := c2 ++ [CommentKind.topCategory]
        some (if f.hasEmotion && !(negativeMajors f.rows).isEmpty
              then c3 ++ [CommentKind.negActionable] else c3)
  else some c2

/-- Round-half-to-even on rationals, the rounding mode of numpy/pandas
underlying `Series.round`. -/
def roundHalfEven (q : ℚ) : ℤ :=
  if Int.fract q < 1/2 then ⌊q⌋
  else if 1/2 < Int.fract q then ⌊q⌋ + 1
  else if ⌊q⌋ % 2 = 0 then ⌊q⌋ else ⌊q⌋ + 1

/-- `Series.round(1)`: rounding to one decimal place. -/
def round1 (q : ℚ) : ℚ := (roundHalfEven (10 * q) : ℚ) / 10

/-- The user-chosen filter combination of the detail table: sentiment value,
major category, major-minor combination (each with `전체` meaning no
restriction) and the sort direction. -/
structure FilterState where
  emotionF : String
  categoryF : String
  comboF : String
  ascending : Bool
deriving DecidableEq, Repr

/-- The filter cascade of `create_detailed_analysis_table`: the sentiment and
major-category filters each apply only when non-`전체` and the column exists;
the combination filter applies when non-`전체` and it splits into exactly two
parts around `' > '`.  (The page only offers non-`전체` combinations when
both category columns exist.) -/
def applyFilters (f : Frame) (fs : FilterState) : List Row :=
  let l1 := if fs.emotionF ≠ "전체" ∧ f.hasEmotion = true
            then f.rows.filter (fun r => r.emotion == some fs.emotionF) else f.rows
  let l2 := if fs.categoryF ≠ "전체" ∧ f.hasMajor = true
            then l1.filter (fun r => r.major == some fs.categoryF) else l1
  if fs.comboF ≠ "전체" then
    match splitCombo fs.comboF.data with
    | some (a, b) => l2.filter (fun r => r.major == some a && r.minor == some b)
    | none => l2
  else l2
where
  /-- `combo_filter.split(' > ')`: leftmost non-overlapping splits on the
  three-character separator. -/
  sepSplit : List Char → List (List Char)
    | c1 :: c2 :: c3 :: rest =>
        if c1 = Char.ofNat 32 ∧ c2 = Char.ofNat 62 ∧ c3 = Char.ofNat 32
        then [] :: sepSplit rest
        else
          match sepSplit (c2 :: c3 :: rest) with
          | [] => [[c1]]
          | g :: gs => (c1 :: g) :: gs
    | cs => [cs]
  /-- The split when it yields exactly two parts (`len(parts) == 2`). -/
  splitCombo (cs : List Char) : Option (String × String) :=
    match sepSplit cs with
    | [a, b] => some (String.mk a, String.mk b)
    | _ => none

/-- The grouping key of a row: the values of the grouping columns present
(`required_cols`, in the order sentiment, major, minor); `none` when any of
them is null, since `groupby` drops such rows. -/
def keyOf (f : Frame) (r : Row) : Option (List String) :=
  allSome ((if f.hasEmotion then [r.emotion] else []) ++
           (if f.hasMajor then [r.major] else []) ++
           (if f.hasMinor then [r.minor] else []))
where
  allSome : List (Option String) → Option (List String)
    | [] => some []
    | none :: _ => none
    | some s :: rest => (allSome rest).map (fun l => s :: l)

/-- One row of the detail summary table: the grouping-key values, the
distinct-id count `VOC수` and the classification count `분류건수`. -/
structure GroupRow where
  key : List String
  vocCount : Nat
  clsCount : Nat
deriving DecidableEq, Repr

/-- The observable outcomes of `create_detailed_analysis_table`:
`emptyFilter` is the "no matching data" warning, `noGroupCols` the "no
groupable columns" warning, `aggKeyError` the `KeyError` pandas raises when
the aggregation dict names the absent `voc_id` column
(`'voc_id': 'count'` with no such column), and `ok` the sorted summary table
together with the total count `분류건수.sum()` used as the ratio
denominator. -/
inductive DetailOutcome
  | emptyFilter
  | noGroupCols
  | aggKeyError
  | ok (groups : List GroupRow) (total : Nat)
deriving DecidableEq, Repr

/-- The detail-table derivation (`create_detailed_analysis_table`): filter,
group by the present grouping columns, aggregate the distinct `voc_id` count
and the non-null count of the table's first column, and sort by `분류건수`
in the requested direction. -/
def create_detailed_analysis_table (f : Frame) (fs : FilterState) : DetailOutcome :=
  let rows := applyFilters f fs
  if rows.isEmpty then DetailOutcome.emptyFilter
  else if !(f.hasEmotion || f.hasMajor || f.hasMinor) then DetailOutcome.noGroupCols
  else if !f.hasVocId then DetailOutcome.aggKeyError
  else
    let keys := distinctVals (rows.filterMap (keyOf f))
    let gs := keys.map (fun k =>
      let grp := rows.filter (fun r => keyOf f r == some k)
      { key := k,
        vocCount := (distinctVals (grp.filterMap Row.vocId)).length,
        clsCount := grp.countP (fun r => r.firstCol.isSome) : GroupRow })
    let sorted := sortBy (fun g h =>
      if fs.ascending then Nat.ble g.clsCount h.clsCount else Nat.ble h.clsCount g.clsCount) gs
    DetailOutcome.ok sorted ((sorted.map GroupRow.clsCount).sum)

/-- The displayed ratio column
`(summary_table['분류건수'] / total_count * 100).round(1)`: an unguarded
division whose denominator is the column's own sum, so a zero denominator
makes every entry NaN (`none`). -/
def ratioColumn : DetailOutcome → List (Option ℚ)
  | DetailOutcome.ok gs total =>
      gs.map (fun g =>
        if total = 0 then none
        else some (round1 ((g.clsCount : ℚ) / (total : ℚ) * 100)))
  | _ => []

/-- The sum of the displayed ratio column (NaN entries contributing 0). -/
def ratioSum (o : DetailOutcome) : ℚ :=
  ((ratioColumn o).map (fun q => q.getD 0)).sum

/-- The number of rows of the displayed summary table. -/
def numGroups : DetailOutcome → Nat
  | DetailOutcome.ok gs _ => gs.length
  | _ => 0

/-! ### Arithmetic helper lemmas -/

lemma abs_roundHalfEven_sub_le (q : ℚ) : |(roundHalfEven q : ℚ) - q| ≤ 1/2 := by
  have h1 : (⌊q⌋ : ℚ) ≤ q := Int.floor_le q
  have h2 : q < ⌊q⌋ + 1 := Int.lt_floor_add_one q
  have hf : Int.fract q = q - ⌊q⌋ := rfl
  unfold roundHalfEven
  split_ifs with hlt hgt heven
  · rw [abs_le]; constructor <;> [linarith [hf ▸ hlt]; linarith [Int.fract_nonneg q, hf]]
  · rw [abs_le]; push_cast; constructor <;> [linarith; linarith [hf ▸ hgt]]
  · have : Int.fract q = 1/2 := le_antisymm (not_lt.mp hgt) (not_lt.mp hlt)
    rw [abs_le]; constructor <;> linarith [hf ▸ this]
  · have : Int.fract q = 1/2 := le_antisymm (not_lt.mp hgt) (not_lt.mp hlt)
    rw [abs_le]; push_cast; constructor <;> linarith [hf ▸ this]

lemma abs_round1_sub_le (q : ℚ) : |round1 q - q| ≤ 1/20 := by
  have h := abs_roundHalfEven_sub_le (10 * q)
  rw [abs_le] at h ⊢
  unfold round1
  constructor <;> [linarith [h.1]; linarith [h.2]]

lemma abs_sum_round1_sub (xs : List ℚ) :
    |(xs.map round1).sum - xs.sum| ≤ (xs.length : ℚ) * (1/20) := by
  induction xs with
  | nil => simp
  | cons a t ih =>
      have ha := abs_round1_sub_le a
      have htri := abs_add (round1 a - a) ((t.map round1).sum - t.sum)
      simp only [List.map_cons, List.sum_cons, List.length_cons]
      have : round1 a + (t.map round1).sum - (a + t.sum)
          = (round1 a - a) + ((t.map round1).sum - t.sum) := by ring
      rw [this]
      calc |(round1 a - a) + ((t.map round1).sum - t.sum)|
          ≤ |round1 a - a| + |(t.map round1).sum - t.sum| := htri
        _ ≤ 1/20 + (t.length : ℚ) * (1/20) := add_le_add ha ih
        _ = ((t.length : ℚ) + 1) * (1/20) := by ring
      push_cast
      ring_nf
      exact le_refl _

lemma ratioOf_nonneg (c total : Nat) : 0 ≤ ratioOf c total := by
  unfold ratioOf
  split
  · positivity
  · exact le_refl 0

lemma ratioOf_le_100 {c total : Nat} (h : c ≤ total) : ratioOf c total ≤ 100 := by
  unfold ratioOf
  split
  · rename_i hT
    rw [div_mul_eq_mul_div, div_le_iff₀ (by exact_mod_cast hT)]
    have hc : (c : ℚ) ≤ (total : ℚ) := by exact_mod_cast h
    nlinarith
  · norm_num

lemma ratioOf_add_three (a b c total : Nat) :
    ratioOf a total + ratioOf b total + ratioOf c total = ratioOf (a + b + c) total := by
  unfold ratioOf
  split
  · rename_i hT
    have : ((total : ℚ)) ≠ 0 := by positivity
    field_simp
    ring
  · simp

lemma ratioOf_self {total : Nat} (h : 0 < total) : ratioOf total total = 100 := by
  unfold ratioOf
  rw [if_pos h, div_self (by positivity), one_mul]

lemma emoCount_le_total (rows : List Row) (v : String) :
    emoCount rows v ≤ totalEmotions rows := by
  unfold emoCount totalEmotions
  refine List.countP_mono_left (fun r _ hr => ?_)
  simp only [beq_iff_eq] at hr
  simp [hr]

lemma three_counts_le (rows : List Row) :
    emoCount rows "긍정" + emoCount rows "중립" + emoCount rows "부정"
      ≤ totalEmotions rows := by
  induction rows with
  | nil => simp [emoCount, totalEmotions]
  | cons r t ih =>
      simp only [emoCount, totalEmotions, List.countP_cons] at ih ⊢
      cases h : r.emotion with
      | none => simp [h]; omega
      | some v =>
          by_cases h1 : v = "긍정" <;> by_cases h2 : v = "중립" <;>
            by_cases h3 : v = "부정" <;> simp_all <;> omega

lemma three_counts_eq (rows : List Row)
    (h : ∀ r ∈ rows, r.emotion = some "긍정" ∨ r.emotion = some "중립" ∨
      r.emotion = some "부정") :
    emoCount rows "긍정" + emoCount rows "중립" + emoCount rows "부정"
      = totalEmotions rows := by
  induction rows with
  | nil => simp [emoCount, totalEmotions]
  | cons r t ih =>
      have hr := h r (List.mem_cons_self r t)
      have ht := ih (fun x hx => h x (List.mem_cons_of_mem r hx))
      simp only [emoCount, totalEmotions, List.countP_cons] at ht ⊢
      rcases hr with hr | hr | hr <;> simp [hr] <;> omega

/-! ### C1: monthly sentiment ratio triple -/

/-- C1.  For every normalized dataset and every month present in it, the
three monthly sentiment ratios of `create_trend_analysis` are each within
`[0, 100]`, their sum is at most 100, and the sum is exactly 100 when the
sentiment column exists and every record of the month carries one of the
three canonical sentiment values. -/
theorem C1_monthly_ratio_triple (f : Frame) (m : Nat)
    (hm : m ∈ f.rows.map (fun r => monthKey r.date)) :
    (0 ≤ positive_ratio f m ∧ positive_ratio f m ≤ 100) ∧
    (0 ≤ neutral_ratio f m ∧ neutral_ratio f m ≤ 100) ∧
    (0 ≤ negative_ratio f m ∧ negative_ratio f m ≤ 100) ∧
    positive_ratio f m + neutral_ratio f m + negative_ratio f m ≤ 100 ∧
    ((f.hasEmotion = true ∧ ∀ r ∈ monthRows f m,
        r.emotion = some "긍정" ∨ r.emotion = some "중립" ∨ r.emotion = some "부정") →
      positive_ratio f m + neutral_ratio f m + negative_ratio f m = 100) := by
  by_cases hE : f.hasEmotion = true
  · simp only [positive_ratio, neutral_ratio, negative_ratio, hE, if_true]
    refine ⟨⟨ratioOf_nonneg _ _, ratioOf_le_100 (emoCount_le_total _ _)⟩,
      ⟨ratioOf_nonneg _ _, ratioOf_le_100 (emoCount_le_total _ _)⟩,
      ⟨ratioOf_nonneg _ _, ratioOf_le_100 (emoCount_le_total _ _)⟩, ?_, ?_⟩
    · rw [ratioOf_add_three]
      exact ratioOf_le_100 (three_counts_le _)
    · rintro ⟨-, hall⟩
      rw [ratioOf_add_three, three_counts_eq _ hall]
      refine ratioOf_self ?_
      obtain ⟨r, hr, hkey⟩ := List.mem_map.mp hm
      have hrm : r ∈ monthRows f m := by
        unfold monthRows
        refine List.mem_filter.mpr ⟨hr, by simp [hkey]⟩
      have := hall r hrm
      unfold totalEmotions
      refine List.countP_pos_iff.mpr ⟨r, hrm, ?_⟩
      rcases this with h | h | h <;> simp [h]
  · simp only [positive_ratio, neutral_ratio, negative_ratio, hE, if_false]
    norm_num

/-- Witness for C1 at a concrete dataset: one January 2025 month with two
recognized sentiment rows. -/
def c1Frame : Frame :=
  { hasEmotion := true, hasMajor := false, hasMinor := false, hasVocId := false,
    rows := [{ firstCol := some "a", vocId := none, emotion := some "긍정",
               major := none, minor := none, date := ⟨2025, 1, 3⟩ },
             { firstCol := some "b", vocId := none, emotion := some "부정",
               major := none, minor := none, date := ⟨2025, 1, 9⟩ }] }

theorem C1_monthly_ratio_triple_witness :
    (0 ≤ positive_ratio c1Frame 202501 ∧ positive_ratio c1Frame 202501 ≤ 100) ∧
    (0 ≤ neutral_ratio c1Frame 202501 ∧ neutral_ratio c1Frame 202501 ≤ 100) ∧
    (0 ≤ negative_ratio c1Frame 202501 ∧ negative_ratio c1Frame 202501 ≤ 100) ∧
    positive_ratio c1Frame 202501 + neutral_ratio c1Frame 202501 +
      negative_ratio c1Frame 202501 ≤ 100 ∧
    ((c1Frame.hasEmotion = true ∧ ∀ r ∈ monthRows c1Frame 202501,
        r.emotion = some "긍정" ∨ r.emotion = some "중립" ∨ r.emotion = some "부정") →
      positive_ratio c1Frame 202501 + neutral_ratio c1Frame 202501 +
        negative_ratio c1Frame 202501 = 100) :=
  C1_monthly_ratio_triple c1Frame 202501 (by decide)

/-! ### C5: sentiment vocabulary normalization -/

/-- A dataset holding the raw sentiment values `"1"` and `"positive"` in one
`sentiment` column. -/
def c5Table : RawTable :=
  { header := ["text", "date", "sentiment"],
    rows := [[some "t1", some "2025-03-01", some "1"],
             [some "t2", some "2025-03-02", some "positive"]] }

/-- C5.  Raw values `"1"` and `"positive"` both normalize to the canonical
positive value `긍정` (also end-to-end through `load_data` on a dataset
holding both); every value of the fixed raw vocabulary maps to one of the
three canonical values, and every value outside the vocabulary passes
through unchanged. -/
theorem C5_sentiment_vocabulary :
    (normalizeEmotion "1" = "긍정" ∧ normalizeEmotion "positive" = "긍정") ∧
    ((load_data c5Table).toOption.map (fun x => x.1.rows.map Row.emotion)
        = some [some "긍정", some "긍정"]) ∧
    (∀ s ∈ emotion_mappings.map Prod.fst,
        normalizeEmotion s = "긍정" ∨ normalizeEmotion s = "중립" ∨
          normalizeEmotion s = "부정") ∧
    (∀ s, s ∉ emotion_mappings.map Prod.fst → normalizeEmotion s = s) := by
  refine ⟨by decide, by decide, ?_, ?_⟩
  · intro s hs
    have hl : emotion_mappings.map Prod.fst =
        ["positive", "negative", "neutral", "pos", "neg", "neu", "1", "0", "-1"] := rfl
    rw [hl] at hs
    fin_cases hs <;> decide
  · intro s hs
    have hl : emotion_mappings.map Prod.fst =
        ["positive", "negative", "neutral", "pos", "neg", "neu", "1", "0", "-1"] := rfl
    rw [hl] at hs
    simp only [List.mem_cons, List.not_mem_nil, or_false, not_or] at hs
    obtain ⟨h1, h2, h3, h4, h5, h6, h7, h8, h9⟩ := hs
    simp [normalizeEmotion, emotion_mappings, List.lookup,
          beq_eq_false_iff_ne.mpr h1, beq_eq_false_iff_ne.mpr h2,
          beq_eq_false_iff_ne.mpr h3, beq_eq_false_iff_ne.mpr h4,
          beq_eq_false_iff_ne.mpr h5, beq_eq_false_iff_ne.mpr h6,
          beq_eq_false_iff_ne.mpr h7, beq_eq_false_iff_ne.mpr h8,
          beq_eq_false_iff_ne.mpr h9]

/-- Witness for C5: the membership hypotheses instantiated at `"pos"` and at
a value outside the vocabulary. -/
theorem C5_sentiment_vocabulary_witness :
    (normalizeEmotion "pos" = "긍정" ∨ normalizeEmotion "pos" = "중립" ∨
       normalizeEmotion "pos" = "부정") ∧ normalizeEmotion "기타" = "기타" :=
  ⟨C5_sentiment_vocabulary.2.2.1 "pos" (by decide),
   C5_sentiment_vocabulary.2.2.2 "기타" (by decide)⟩

/-! ### C3: typed load failures -/

/-- C3.  `load_data` fails with `noDateColumn` whenever no candidate date
column resolves — regardless of the row contents, i.e. before the period
restriction — and fails with the distinct error `emptyAfterFilter` when a
date column resolves but the 2025 slice of the date-parsed dataset is
empty. -/
theorem C3_load_failure_modes :
    (∀ t : RawTable, findDateCol t = none →
        load_data t = Except.error LoadError.noDateColumn) ∧
    (∀ (t : RawTable) (c : String), findDateCol t = some c → rows2025 t c = [] →
        load_data t = Except.error LoadError.emptyAfterFilter) ∧
    LoadError.noDateColumn ≠ LoadError.emptyAfterFilter := by
  refine ⟨?_, ?_, by decide⟩
  · intro t h
    simp [load_data, h]
  · intro t c h h25
    simp [load_data, h, h25]

/-- A table with no candidate date column. -/
def c3NoDateTable : RawTable := { header := ["foo"], rows := [[some "x"]] }

/-- A table whose only parsable dates fall outside 2025. -/
def c3OffYearTable : RawTable := { header := ["date"], rows := [[some "2024-05-01"]] }

theorem C3_load_failure_modes_witness :
    load_data c3NoDateTable = Except.error LoadError.noDateColumn ∧
    load_data c3OffYearTable = Except.error LoadError.emptyAfterFilter :=
  ⟨C3_load_failure_modes.1 c3NoDateTable (by decide),
   C3_load_failure_modes.2.1 c3OffYearTable "date" (by decide) (by decide)⟩

/-! ### C7: period resolution -/

lemma mem_le_foldr_max (l : List Nat) (x : Nat) (hx : x ∈ l) : x ≤ l.foldr max 0 := by
  induction l with
  | nil => cases hx
  | cons a t ih =>
      rcases List.mem_cons.mp hx with h | h
      · subst h; exact Nat.le_max_left _ _
      · exact le_trans (ih h) (Nat.le_max_right _ _)

lemma foldr_max_mem (l : List Nat) (h : l ≠ []) : l.foldr max 0 ∈ l := by
  induction l with
  | nil => exact absurd rfl h
  | cons a t ih =>
      cases t with
      | nil => simp
      | cons b u =>
          rcases Nat.le_total (List.foldr max 0 (b :: u)) a with hle | hle
          · simp only [List.foldr_cons] at *
            rw [Nat.max_eq_left hle]
            exact List.mem_cons_self _ _
          · simp only [List.foldr_cons] at *
            rw [Nat.max_eq_right hle]
            exact List.mem_cons_of_mem a (ih (by simp))

lemma count_filter_split (l : List Row) (p : Row → Bool) (r : Row) :
    (l.filter p).count r = if p r then l.count r else 0 := by
  split
  · rename_i hp
    exact List.count_filter (by simpa using hp)
  · rename_i hp
    refine List.count_eq_zero.mpr (fun hmem => hp ?_)
    exact (List.mem_filter.mp hmem).2

/-- C7.  For every nonempty normalized dataset, the current-month period
restricts to exactly the rows whose month key is the maximum month key
present (same multiplicity, with the month-key maximality established), the
result is labelled with that month key, and the year-to-date period returns
the dataset unchanged under the fixed year-total label. -/
theorem C7_period_resolution (f : Frame) (h : f.rows ≠ []) :
    (latestMonth f.rows ∈ f.rows.map (fun r => monthKey r.date)) ∧
    (∀ r ∈ f.rows, monthKey r.date ≤ latestMonth f.rows) ∧
    ((get_filtered_data f "현월").2 = formatMonth (latestMonth f.rows)) ∧
    (∀ r : Row, ((get_filtered_data f "현월").1.rows.count r =
        if monthKey r.date = latestMonth f.rows then f.rows.count r else 0)) ∧
    get_filtered_data f "25년 누적" = (f, "2025년 누적") := by
  have hmap : f.rows.map (fun r => monthKey r.date) ≠ [] := by
    intro hc
    exact h (List.map_eq_nil_iff.mp hc)
  refine ⟨foldr_max_mem _ hmap, ?_, ?_, ?_, ?_⟩
  · intro r hr
    exact mem_le_foldr_max _ _ (List.mem_map.mpr ⟨r, hr, rfl⟩)
  · simp [get_filtered_data]
  · intro r
    have hrows : (get_filtered_data f "현월").1.rows
        = f.rows.filter (fun r => monthKey r.date == latestMonth f.rows) := by
      simp [get_filtered_data]
    rw [hrows, count_filter_split]
    by_cases hm : monthKey r.date = latestMonth f.rows
    · simp [hm]
    · simp [hm]
  · simp [get_filtered_data]

/-- Witness for C7: a concrete two-month dataset whose current month is
March 2025. -/
def c7Frame : Frame :=
  { hasEmotion := false, hasMajor := false, hasMinor := false, hasVocId := false,
    rows := [{ firstCol := some "a", vocId := none, emotion := none,
               major := none, minor := none, date := ⟨2025, 1, 5⟩ },
             { firstCol := some "b", vocId := none, emotion := none,
               major := none, minor := none, date := ⟨2025, 3, 7⟩ }] }

theorem C7_period_resolution_witness :
    (latestMonth c7Frame.rows ∈ c7Frame.rows.map (fun r => monthKey r.date)) ∧
    ((get_filtered_data c7Frame "현월").2 = formatMonth (latestMonth c7Frame.rows)) ∧
    get_filtered_data c7Frame "25년 누적" = (c7Frame, "2025년 누적") :=
  ⟨(C7_period_resolution c7Frame (by decide)).1,
   (C7_period_resolution c7Frame (by decide)).2.2.1,
   (C7_period_resolution c7Frame (by decide)).2.2.2.2⟩

/-! ### C8: unparsable dates are dropped, but no drop count is recorded -/

/-- A one-row table whose date parses in 2025. -/
def c8TableA : RawTable :=
  { header := ["date", "감정"], rows := [[some "2025-01-05", some "긍정"]] }

/-- The same table plus one row whose date value does not parse. -/
def c8TableB : RawTable :=
  { header := ["date", "감정"],
    rows := [[some "2025-01-05", some "긍정"], [some "not a date", some "부정"]] }

/-- C8 counterexample.  Two inputs that differ only in one unparsable-date
row produce identical `load_data` outputs — frame, date column and the whole
provenance summary — although their drop counts differ (0 versus 1).  Hence
the number of dropped rows is not recorded anywhere in the load's output,
contradicting the claim that the provenance summary records a drop count. -/
theorem C8_counterexample :
    load_data c8TableB = load_data c8TableA ∧
    droppedRowCount c8TableA = 0 ∧ droppedRowCount c8TableB = 1 := by
  decide

/-- C8 as amended.  Every input row whose date value fails to parse
contributes no record (so no downstream aggregate depends on it), and the
load succeeds — returning exactly the 2025 slice of the date-parsed rows —
as long as at least one row's date parses within the target year.  (The
provenance summary records only post-drop row counts; by
the counterexample, the drop count itself is not recorded.) -/
theorem C8_amended (t : RawTable) (c : String) (h : findDateCol t = some c)
    (h25 : rows2025 t c ≠ []) :
    (∃ result, load_data t = Except.ok result ∧
        result.1.rows = rows2025 t c ∧ result.2.1 = c) ∧
    (∀ raw ∈ t.rows, (cellAt raw (colIdx t c)).bind parseDate = none →
        rowOf t c raw = none) := by
  constructor
  · cases hr : rows2025 t c with
    | nil => exact absurd hr h25
    | cons r0 rest =>
        refine ⟨({ hasEmotion := (emotionSource t).isSome,
                   hasMajor := (majorSource t).isSome,
                   hasMinor := (minorSource t).isSome,
                   hasVocId := t.header.contains "voc_id",
                   rows := r0 :: rest },
                 c,
                 { totalRows := (parsedRows t c).length,
                   rowsInYear := (r0 :: rest).length,
                   minDate := minDateOf r0.date rest,
                   maxDate := maxDateOf r0.date rest,
                   minMonth := minMonthOf (monthKey r0.date) rest,
                   maxMonth := maxMonthOf (monthKey r0.date) rest,
                   emotionKinds := if (emotionSource t).isSome
                     then nuniqueBy Row.emotion (r0 :: rest) else 0,
                   majorKinds := if (majorSource t).isSome
                     then nuniqueBy Row.major (r0 :: rest) else 0 }), ?_, ?_, rfl⟩
        · simp [load_data, h, hr]
        · simp [hr]
  · intro raw _ hfail
    simp [rowOf, hfail]

theorem C8_amended_witness :
    (∃ result, load_data c8TableB = Except.ok result ∧
        result.1.rows = rows2025 c8TableB "date" ∧ result.2.1 = "date") ∧
    (∀ raw ∈ c8TableB.rows,
        (cellAt raw (colIdx c8TableB "date")).bind parseDate = none →
        rowOf c8TableB "date" raw = none) :=
  C8_amended c8TableB "date" (by decide) (by decide)

/-! ### C9: top-N selection over an empty dataset -/

/-- An empty dataset with a major-category column present. -/
def c9Frame : Frame :=
  { hasEmotion := false, hasMajor := true, hasMinor := false, hasVocId := false,
    rows := [] }

/-- C9 counterexample.  On an empty dataset with the major-category column
present, the narrative generator's dominant-category selection
(`value_counts().index[0]`) raises an `IndexError` (modelled as `none`)
instead of yielding an empty result, contradicting "never raises an
error". -/
theorem C9_counterexample :
    create_summary_comments c9Frame "m" = none ∧ mostCommonMajor c9Frame.rows = none := by
  decide

/-- C9 as amended.  On an empty dataset the top-3 trend categories, the
top-10 breakdown categories and the top major-minor combinations are all
empty sequences without error; the dominant-category selection of the
narrative generator, however, finds no value (an `IndexError` in the code)
whenever the major-category column is present — a state unreachable through
the normal load path, which guarantees a nonempty dataset. -/
theorem C9_amended (f : Frame) (lbl : String) (hrows : f.rows = []) :
    trendTopCategories f = [] ∧ breakdownTopCategories f = [] ∧
    topCombinations f = [] ∧ mostCommonMajor f.rows = none ∧
    (f.hasMajor = true → create_summary_comments f lbl = none) := by
  obtain ⟨hE, hMa, hMi, hV, rows⟩ := f
  simp only at hrows
  subst hrows
  refine ⟨?_, ?_, ?_, ?_, ?_⟩
  · simp [trendTopCategories, valueCounts, distinctVals, distinctValsAux, sortBy]
  · simp [breakdownTopCategories, valueCounts, distinctVals, distinctValsAux, sortBy]
  · cases hMa <;> cases hMi <;>
      simp [topCombinations, valueCounts, distinctVals, distinctValsAux, sortBy]
  · simp [mostCommonMajor, valueCounts, distinctVals, distinctValsAux, sortBy]
  · intro hM
    simp only at hM
    subst hM
    simp [create_summary_comments, mostCommonMajor, valueCounts, distinctVals,
          distinctValsAux, sortBy]

theorem C9_amended_witness :
    trendTopCategories c9Frame = [] ∧ breakdownTopCategories c9Frame = [] ∧
    topCombinations c9Frame = [] ∧ mostCommonMajor c9Frame.rows = none ∧
    create_summary_comments c9Frame "x" = none :=
  ⟨(C9_amended c9Frame "x" rfl).1, (C9_amended c9Frame "x" rfl).2.1,
   (C9_amended c9Frame "x" rfl).2.2.1, (C9_amended c9Frame "x" rfl).2.2.2.1,
   (C9_amended c9Frame "x" rfl).2.2.2.2 rfl⟩

/-! ### C6: negative-ratio tier comment -/

lemma isNegTier_volume (f : Frame) (lbl : String) :
    isNegTier (volumeComment f lbl) = false := by
  unfold volumeComment
  split_ifs <;> rfl

lemma isNegTier_negTier (q : ℚ) : isNegTier (negTierComment q) = true := by
  unfold negTierComment
  split_ifs <;> rfl

lemma isNegTier_top : isNegTier CommentKind.topCategory = false := rfl

lemma isNegTier_act : isNegTier CommentKind.negActionable = false := rfl

/-- The §8 scenario dataset: month A (2025-01) with 5 positive, 3 negative
and 2 neutral rows; month B (2025-02) with 2 positive rows. -/
def c6Row (e : String) (mo : Nat) (d : Nat) : Row :=
  { firstCol := some "t", vocId := none, emotion := some e, major := none,
    minor := none, date := ⟨2025, mo, d⟩ }

def c6Frame : Frame :=
  { hasEmotion := true, hasMajor := false, hasMinor := false, hasVocId := false,
    rows := [c6Row "긍정" 1 1, c6Row "긍정" 1 2, c6Row "긍정" 1 3, c6Row "긍정" 1 4,
             c6Row "긍정" 1 5, c6Row "부정" 1 6, c6Row "부정" 1 7, c6Row "부정" 1 8,
             c6Row "중립" 1 9, c6Row "중립" 1 10, c6Row "긍정" 2 1, c6Row "긍정" 2 2] }

/-- C6.  The tier comment is selected by the fixed 40/60 thresholds (urgent
iff the ratio exceeds 60, caution iff it is in (40, 60], low otherwise);
whenever a sentiment column exists and the narrative generator returns,
exactly one tier comment appears, namely the tier of the negative share; and
in the §8 scenario the current month resolves to 2025-02 with a 0% negative
overview ratio and the generator emits the low tier, not the high one. -/
theorem C6_negative_tier_selection :
    (∀ q : ℚ, (negTierComment q = CommentKind.negUrgent ↔ 60 < q) ∧
        (negTierComment q = CommentKind.negCaution ↔ 40 < q ∧ q ≤ 60) ∧
        (negTierComment q = CommentKind.negLow ↔ q ≤ 40)) ∧
    (∀ (f : Frame) (lbl : String) (cs : List CommentKind), f.hasEmotion = true →
        create_summary_comments f lbl = some cs →
        cs.countP isNegTier = 1 ∧ negTierComment (negativeShare f.rows) ∈ cs) ∧
    ((get_filtered_data c6Frame "현월").2 = "2025-02" ∧
     overview_negative_ratio (get_filtered_data c6Frame "현월").1 = 0 ∧
     create_summary_comments (get_filtered_data c6Frame "현월").1 "2025-02"
        = some [CommentKind.volumeLow, CommentKind.negLow]) := by
  have hEcur : (get_filtered_data c6Frame "현월").1.hasEmotion = true := by decide
  have hMcur : (get_filtered_data c6Frame "현월").1.hasMajor = false := by decide
  have hshare0 : negativeShare (get_filtered_data c6Frame "현월").1.rows = 0 := by
    have h1 : emoCount (get_filtered_data c6Frame "현월").1.rows "부정" = 0 := by decide
    have h2 : totalEmotions (get_filtered_data c6Frame "현월").1.rows = 2 := by decide
    unfold negativeShare
    rw [h1, h2]
    unfold ratioOf
    norm_num
  refine ⟨?_, ?_, ?_, ?_, ?_⟩
  · intro q
    unfold negTierComment
    split_ifs with h1 h2
    · exact ⟨⟨fun _ => h1, fun _ => rfl⟩,
        ⟨fun hc => hc.elim, fun hc => absurd h1 (not_lt.mpr hc.2)⟩,
        ⟨fun hc => hc.elim, fun hc => absurd h1 (not_lt.mpr (by linarith))⟩⟩
    · exact ⟨⟨fun hc => hc.elim, fun hc => absurd hc h1⟩,
        ⟨fun _ => ⟨h2, not_lt.mp h1⟩, fun _ => rfl⟩,
        ⟨fun hc => hc.elim, fun hc => absurd h2 (not_lt.mpr hc)⟩⟩
    · exact ⟨⟨fun hc => hc.elim, fun hc => absurd hc h1⟩,
        ⟨fun hc => hc.elim, fun hc => absurd hc.1 h2⟩,
        ⟨fun _ => not_lt.mp h2, fun _ => rfl⟩⟩
  · intro f lbl cs hE hsome
    unfold create_summary_comments at hsome
    simp only [hE, if_true, Bool.true_and] at hsome
    by_cases hM : f.hasMajor = true
    · simp only [hM, if_true] at hsome
      cases hmc : mostCommonMajor f.rows with
      | none => rw [hmc] at hsome; cases hsome
      | some v =>
          rw [hmc] at hsome
          simp only [Option.some.injEq] at hsome
          subst hsome
          cases hni : (negativeMajors f.rows).isEmpty <;>
            simp [hni, List.countP_cons, List.countP_append,
                  isNegTier_volume, isNegTier_negTier, isNegTier_top, isNegTier_act]
    · simp only [hM] at hsome
      simp only [Bool.false_eq_true, if_false, Option.some.injEq] at hsome
      subst hsome
      simp [List.countP_cons, List.countP_append, isNegTier_volume, isNegTier_negTier]
  · decide
  · simp [overview_negative_ratio, hEcur, hshare0]
  · have hvol : volumeComment (get_filtered_data c6Frame "현월").1 "2025-02"
        = CommentKind.volumeLow := by decide
    have hcs : create_summary_comments (get_filtered_data c6Frame "현월").1 "2025-02"
        = some ([volumeComment (get_filtered_data c6Frame "현월").1 "2025-02"]
            ++ [negTierComment (negativeShare (get_filtered_data c6Frame "현월").1.rows)]) := by
      unfold create_summary_comments
      simp [hEcur, hMcur]
    rw [hcs, hvol, hshare0]
    norm_num [negTierComment]

theorem C6_negative_tier_selection_witness :
    (negTierComment (0 : ℚ) = CommentKind.negLow ↔ (0 : ℚ) ≤ 40) ∧
    ([CommentKind.volumeLow, CommentKind.negLow].countP isNegTier = 1 ∧
      negTierComment (negativeShare (get_filtered_data c6Frame "현월").1.rows)
        ∈ [CommentKind.volumeLow, CommentKind.negLow]) :=
  ⟨(C6_negative_tier_selection.1 0).2.2,
   C6_negative_tier_selection.2.1 (get_filtered_data c6Frame "현월").1 "2025-02"
     [CommentKind.volumeLow, CommentKind.negLow] (by decide)
     C6_negative_tier_selection.2.2.2.2⟩

/-! ### C2: division-by-zero guards -/

lemma ratioOf_zero_total (c : Nat) : ratioOf c 0 = 0 := by
  unfold ratioOf
  norm_num

/-- The all-`전체` filter state (no restriction). -/
def allFilter : FilterState :=
  { emotionF := "전체", categoryF := "전체", comboF := "전체", ascending := false }

/-- A dataset whose single row has a null first-column value (with `voc_id`
present), so the detail table's `분류건수` column sums to zero. -/
def c2Frame : Frame :=
  { hasEmotion := true, hasMajor := false, hasMinor := false, hasVocId := true,
    rows := [{ firstCol := none, vocId := some "v1", emotion := some "긍정",
               major := none, minor := none, date := ⟨2025, 1, 1⟩ }] }

/-- C2 counterexample.  On a nonempty filtered dataset whose first-column
values are all null, the detail table renders a group row whose ratio entry
is NaN (`none`): the division at the ratio column is performed with the zero
denominator instead of being guarded to 0, so an undefined numeric value
reaches the presentation layer. -/
theorem C2_counterexample :
    create_detailed_analysis_table c2Frame allFilter
      = DetailOutcome.ok [{ key := ["긍정"], vocCount := 1, clsCount := 0 }] 0 ∧
    ratioColumn (create_detailed_analysis_table c2Frame allFilter) = [none] := by
  decide

/-- C2 as amended.  The monthly sentiment ratios and the overview
negative-sentiment ratio are guarded: a zero denominator yields the defined
value 0.  The detail-table ratio column is not guarded: its entries are
defined (non-NaN) exactly when the summed group count is positive, and all
become NaN when that sum is zero. -/
theorem C2_ratio_guards :
    (∀ (f : Frame) (m : Nat), totalEmotions (monthRows f m) = 0 →
        positive_ratio f m = 0 ∧ neutral_ratio f m = 0 ∧ negative_ratio f m = 0) ∧
    (∀ f : Frame, totalEmotions f.rows = 0 → overview_negative_ratio f = 0) ∧
    (∀ (f : Frame) (fs : FilterState) (gs : List GroupRow) (total : Nat),
        create_detailed_analysis_table f fs = DetailOutcome.ok gs total →
        (0 < total → ∀ q ∈ ratioColumn (create_detailed_analysis_table f fs),
            q.isSome = true) ∧
        (total = 0 → ∀ q ∈ ratioColumn (create_detailed_analysis_table f fs),
            q = none)) := by
  refine ⟨?_, ?_, ?_⟩
  · intro f m h
    unfold positive_ratio neutral_ratio negative_ratio
    by_cases hE : f.hasEmotion = true <;> simp [hE, h, ratioOf_zero_total]
  · intro f h
    unfold overview_negative_ratio negativeShare
    by_cases hE : f.hasEmotion = true <;> simp [hE, h, ratioOf_zero_total]
  · intro f fs gs total hok
    rw [hok]
    constructor
    · intro htot q hq
      simp only [ratioColumn, List.mem_map] at hq
      obtain ⟨g, -, hg⟩ := hq
      rw [if_neg (Nat.pos_iff_ne_zero.mp htot)] at hg
      rw [← hg]
      rfl
    · intro htot q hq
      simp only [ratioColumn, List.mem_map] at hq
      obtain ⟨g, -, hg⟩ := hq
      rw [if_pos htot] at hg
      exact hg.symm

/-- A dataset for which the detail table has one group with a positive
count. -/
def c2OkFrame : Frame :=
  { hasEmotion := true, hasMajor := false, hasMinor := false, hasVocId := true,
    rows := [{ firstCol := some "t", vocId := some "v1", emotion := some "긍정",
               major := none, minor := none, date := ⟨2025, 1, 1⟩ }] }

theorem C2_ratio_guards_witness :
    (positive_ratio c2Frame 202502 = 0 ∧ neutral_ratio c2Frame 202502 = 0 ∧
      negative_ratio c2Frame 202502 = 0) ∧
    (∀ q ∈ ratioColumn (create_detailed_analysis_table c2OkFrame allFilter),
        q.isSome = true) :=
  ⟨C2_ratio_guards.1 c2Frame 202502 (by decide),
   (C2_ratio_guards.2.2 c2OkFrame allFilter
      [{ key := ["긍정"], vocCount := 1, clsCount := 1 }] 1 (by decide)).1 (by decide)⟩

/-! ### C4: detail-table ratio column sum -/

lemma sum_ratio_groups (gs : List GroupRow) (T : ℚ) :
    (gs.map (fun g => (g.clsCount : ℚ) / T * 100)).sum
      = (((gs.map GroupRow.clsCount).sum : ℚ)) / T * 100 := by
  induction gs with
  | nil => simp
  | cons a t ih =>
      simp only [List.map_cons, List.sum_cons, ih, Nat.cast_add]
      ring

lemma detail_ok_sum (f : Frame) (fs : FilterState) (gs : List GroupRow) (total : Nat)
    (hok : create_detailed_analysis_table f fs = DetailOutcome.ok gs total) :
    (gs.map GroupRow.clsCount).sum = total := by
  simp only [create_detailed_analysis_table] at hok
  split at hok
  · cases hok
  · split at hok
    · cases hok
    · split at hok
      · cases hok
      · injection hok with h1 h2
        rw [← h1, ← h2]

/-- C4 as amended.  Whenever the detail table is produced with a positive
total count, the rounded ratio column sums to 100 within a tolerance of
0.05 per returned group (each entry rounds its exact ratio by at most 0.05,
and the exact ratios sum to exactly 100). -/
theorem C4_ratio_sum_bound (f : Frame) (fs : FilterState) (gs : List GroupRow)
    (total : Nat) (hok : create_detailed_analysis_table f fs = DetailOutcome.ok gs total)
    (htot : 0 < total) :
    |ratioSum (create_detailed_analysis_table f fs) - 100|
      ≤ (numGroups (create_detailed_analysis_table f fs) : ℚ) * (1/20) := by
  have hsum := detail_ok_sum f fs gs total hok
  rw [hok]
  have hne : total ≠ 0 := Nat.pos_iff_ne_zero.mp htot
  have hcol : ratioSum (DetailOutcome.ok gs total)
      = ((gs.map (fun g => (g.clsCount : ℚ) / (total : ℚ) * 100)).map round1).sum := by
    unfold ratioSum ratioColumn
    simp only [List.map_map]
    congr 1
    refine List.map_congr_left (fun g _ => ?_)
    simp [Function.comp, hne]
  have hexact : (gs.map (fun g => (g.clsCount : ℚ) / (total : ℚ) * 100)).sum = 100 := by
    rw [sum_ratio_groups, hsum, div_self (by exact_mod_cast hne), one_mul]
  have hbound := abs_sum_round1_sub (gs.map (fun g => (g.clsCount : ℚ) / (total : ℚ) * 100))
  rw [hexact, List.length_map] at hbound
  rw [hcol]
  simpa [numGroups] using hbound

/-- Six equal singleton groups (each ratio 1/6, rounding to 16.7). -/
def c4Row (ma : String) (vid : String) : Row :=
  { firstCol := some "x", vocId := some vid, emotion := none,
    major := some ma, minor := none, date := ⟨2025, 1, 1⟩ }

def c4Frame : Frame :=
  { hasEmotion := false, hasMajor := true, hasMinor := false, hasVocId := true,
    rows := [c4Row "c1" "v1", c4Row "c2" "v2", c4Row "c3" "v3",
             c4Row "c4" "v4", c4Row "c5" "v5", c4Row "c6" "v6"] }

lemma round1_fifty_thirds : round1 ((50 : ℚ) / 3) = 167/10 := by
  have hfl : ⌊(10 : ℚ) * (50 / 3)⌋ = 166 := by
    rw [Int.floor_eq_iff]
    norm_num
  unfold round1 roundHalfEven
  rw [Int.fract, hfl]
  norm_num

/-- C4 counterexample.  For the all-`전체` filter on a nonempty dataset with
six singleton groups, every rounded ratio is 16.7 and the column sums to
100.2, which misses 100 by 0.2 — outside the claimed ±0.1 tolerance. -/
theorem C4_counterexample :
    create_detailed_analysis_table c4Frame allFilter
      = DetailOutcome.ok
          [{ key := ["c1"], vocCount := 1, clsCount := 1 },
           { key := ["c2"], vocCount := 1, clsCount := 1 },
           { key := ["c3"], vocCount := 1, clsCount := 1 },
           { key := ["c4"], vocCount := 1, clsCount := 1 },
           { key := ["c5"], vocCount := 1, clsCount := 1 },
           { key := ["c6"], vocCount := 1, clsCount := 1 }] 6 ∧
    ratioSum (create_detailed_analysis_table c4Frame allFilter) = 501/5 ∧
    ¬(|ratioSum (create_detailed_analysis_table c4Frame allFilter) - 100| ≤ 1/10) := by
  have hok : create_detailed_analysis_table c4Frame allFilter
      = DetailOutcome.ok
          [{ key := ["c1"], vocCount := 1, clsCount := 1 },
           { key := ["c2"], vocCount := 1, clsCount := 1 },
           { key := ["c3"], vocCount := 1, clsCount := 1 },
           { key := ["c4"], vocCount := 1, clsCount := 1 },
           { key := ["c5"], vocCount := 1, clsCount := 1 },
           { key := ["c6"], vocCount := 1, clsCount := 1 }] 6 := by decide
  have hsum : ratioSum (create_detailed_analysis_table c4Frame allFilter) = 501/5 := by
    rw [hok]
    unfold ratioSum ratioColumn
    norm_num [round1_fifty_thirds]
  refine ⟨hok, hsum, ?_⟩
  rw [hsum, abs_le]
  norm_num

theorem C4_ratio_sum_bound_witness :
    |ratioSum (create_detailed_analysis_table c2OkFrame allFilter) - 100|
      ≤ (numGroups (create_detailed_analysis_table c2OkFrame allFilter) : ℚ) * (1/20) :=
  C4_ratio_sum_bound c2OkFrame allFilter
    [{ key := ["긍정"], vocCount := 1, clsCount := 1 }] 1 (by decide) (by decide)

/-! ### C10: detail-table aggregation without a voc_id column -/

/-- A dataset without a `voc_id` column and with a nonempty, groupable
filtered result. -/
def c10Frame : Frame :=
  { hasEmotion := true, hasMajor := false, hasMinor := false, hasVocId := false,
    rows := [{ firstCol := some "t", vocId := none, emotion := some "긍정",
               major := none, minor := none, date := ⟨2025, 1, 1⟩ }] }

/-- C10 failing input.  When no `voc_id` column is present, the detail-table
aggregation dict still names `voc_id` as a key
(`'voc_id': 'nunique' if 'voc_id' in table_df.columns else 'count'`), so
pandas raises `KeyError: "Column(s) ['voc_id'] do not exist"` before any
count is computed: the first-column fallback counting described by the claim
— although clearly the code's intent, given the dead rename and
column-selection branches written for it — is never reached. -/
theorem C10_agg_keyerror :
    create_detailed_analysis_table c10Frame allFilter = DetailOutcome.aggKeyError := by
  decide
